import Mathlib

/-! ## nxsem_waitirq: cancelling a semaphore wait

A shallow embedding of `sched/semaphore/sem_waitirq.c`.  Pointers are
natural-number addresses into two tables (task control blocks and
semaphores); a null pointer is `none`.  The function is embedded as a pure
function from the state on entry to a `Run`: the state on exit, the ordered
list of the actions it took, and whether it returned or died in its
assertion.  The collaborators whose code lives elsewhere in the kernel
(`enter_critical_section`, `nxsem_canceled`, `up_unblock_task`) are fields of
an `Env`; what a theorem needs to know about them is a named hypothesis.
-/

namespace Nuttx

/-! ## Data model -/

/-- Values of the protocol attribute, `include/nuttx/semaphore.h`. -/
def SEM_PRIO_NONE : Nat := 0

/-- Values of the protocol attribute, `include/nuttx/semaphore.h`. -/
def SEM_PRIO_INHERIT : Nat := 1

/-- Values of the protocol attribute, `include/nuttx/semaphore.h`. -/
def SEM_PRIO_PROTECT : Nat := 2

/-- Modelled from the spec: `errno.h` is not among the sources.  The spec only
asks that the two reason codes be distinct; the numbers are the usual ones. -/
def EINTR : Int := 4

/-- Modelled from the spec: `errno.h` is not among the sources.  The spec only
asks that the two reason codes be distinct; the numbers are the usual ones. -/
def ETIMEDOUT : Int := 110

/-- The saved interrupt state handed from `enter_critical_section` to
`leave_critical_section`. -/
abbrev irqstate_t := Nat

/-- A 16-bit signed machine integer, the type of the semaphore count
(`int16_t`, as in the prototype of `nxsem_reset`). -/
def int16_t : Type := { n : Int // -32768 ≤ n ∧ n ≤ 32767 }

/-- Two's-complement wrap of an integer into the 16-bit signed range. -/
def int16_wrap (x : Int) : Int := (x + 32768) % 65536 - 32768

/-- The machine integer holding `x` modulo 2^16. -/
def int16_t.ofInt (x : Int) : int16_t :=
  ⟨int16_wrap x, by unfold int16_wrap; omega⟩

/-- The C expression `c++` on an `int16_t` lvalue: the stored value is
`c + 1` wrapped to 16 bits. -/
def int16_t.incr (c : int16_t) : int16_t := int16_t.ofInt (c.val + 1)

/-- The C expression `c--` on an `int16_t` lvalue. -/
def int16_t.decr (c : int16_t) : int16_t := int16_t.ofInt (c.val - 1)

/-- Modelled from the spec: the task states of `enum tstate_e` (`sched.h` is
not among the sources).  The spec distinguishes running, blocked on a
semaphore, and other states; the names are the kernel's. -/
inductive tstate_e where
  | TSTATE_TASK_INVALID
  | TSTATE_TASK_PENDING
  | TSTATE_TASK_READYTORUN
  | TSTATE_TASK_RUNNING
  | TSTATE_TASK_INACTIVE
  | TSTATE_WAIT_SEM
  | TSTATE_WAIT_SIG
  deriving DecidableEq, Repr

open tstate_e

/-- Modelled from the spec: the semaphore record `sem_t` (its declaration is
not among the sources): the signed count, the protocol tag and the holder
registry of (task, hold-count) pairs. -/
structure sem_t where
  semcount : int16_t
  protocol : Nat
  holders : List (Nat × Nat)

/-- Modelled from the spec: the fields of `struct tcb_s` that the semaphore
core consumes (its declaration is not among the sources): wait-state,
wait-target, pending-error, effective priority and base priority. -/
structure tcb_s where
  task_state : tstate_e
  waitsem : Option Nat
  pterrno : Int
  sched_priority : Nat
  base_priority : Nat

/-- The kernel memory the function works on: the task table and the
semaphores, both addressed by number. -/
structure Sys where
  tcbs : Nat → tcb_s
  sems : Nat → sem_t

/-! ## Actions and runs -/

/-- The actions `nxsem_waitirq` takes, in the vocabulary of its source. -/
inductive Event where
  | enter_critical_section (flags : irqstate_t)
  | read_task_state (tcb : Nat)
  | read_waitsem (tcb : Nat)
  | debugassert (holds : Bool)
  | nxsem_canceled (tcb : Nat) (sem : Nat)
  | write_semcount (sem : Nat)
  | write_waitsem (tcb : Nat)
  | write_pterrno (tcb : Nat) (errcode : Int)
  | up_unblock_task (tcb : Nat)
  | leave_critical_section (flags : irqstate_t)
  deriving DecidableEq, Repr

/-- One entry of a trace: an action and the memory it was taken in. -/
structure Step where
  ev : Event
  pre : Sys

/-- How a call ended. -/
inductive Status where
  | returned
  | assertion_failed
  deriving DecidableEq, Repr

/-- The result of running the function: memory at the end, the actions taken
in order, and how the call ended. -/
structure Run where
  sys : Sys
  trace : List Step
  status : Status

/-- The collaborators of `nxsem_waitirq` that live outside the file:
the value `enter_critical_section` returns, the priority-restore step
`nxsem_canceled (tcb, sem)` and the scheduler's `up_unblock_task (tcb)`. -/
structure Env where
  enter_critical_section : irqstate_t
  nxsem_canceled : Nat → Nat → Sys → Sys
  up_unblock_task : Nat → Sys → Sys

/-! ## The writes of the function body -/

/-- The statement `sem->semcount++`. -/
def Sys.incr_semcount (σ : Sys) (sem : Nat) : Sys :=
  { σ with
    sems := Function.update σ.sems sem
              ({ σ.sems sem with semcount := (σ.sems sem).semcount.incr }) }

/-- The statement `wtcb->waitsem = NULL`. -/
def Sys.clear_waitsem (σ : Sys) (wtcb : Nat) : Sys :=
  { σ with tcbs := Function.update σ.tcbs wtcb ({ σ.tcbs wtcb with waitsem := none }) }

/-- The statement `wtcb->pterrno = errcode`. -/
def Sys.set_pterrno (σ : Sys) (wtcb : Nat) (errcode : Int) : Sys :=
  { σ with tcbs := Function.update σ.tcbs wtcb ({ σ.tcbs wtcb with pterrno := errcode }) }

/-- The condition of `DEBUGASSERT(sem != NULL && sem->semcount < 0)`. -/
def assert_cond (σ : Sys) (sem : Option Nat) : Bool :=
  match sem with
  | none => false
  | some s => decide ((σ.sems s).semcount.val < 0)

/-- The body of the `if` once the assertion has held, for the non-null `sem`:
restore priorities, give the count back, end the wait, record the reason,
restart the task, and leave the critical section. -/
def nxsem_waitirq_body (env : Env) (wtcb : Nat) (errcode : Int) (sem : Nat)
    (σ : Sys) (flags : irqstate_t) (sofar : List Step) : Run :=
  let σ1 := env.nxsem_canceled wtcb sem σ
  let σ2 := σ1.incr_semcount sem
  let σ3 := σ2.clear_waitsem wtcb
  let σ4 := σ3.set_pterrno wtcb errcode
  let σ5 := env.up_unblock_task wtcb σ4
  { sys := σ5
    trace := sofar ++
      [ ⟨Event.nxsem_canceled wtcb sem, σ⟩,
        ⟨Event.write_semcount sem, σ1⟩,
        ⟨Event.write_waitsem wtcb, σ2⟩,
        ⟨Event.write_pterrno wtcb errcode, σ3⟩,
        ⟨Event.up_unblock_task wtcb, σ4⟩,
        ⟨Event.leave_critical_section flags, σ5⟩ ]
    status := Status.returned }

/-- The function `nxsem_waitirq (wtcb, errcode)` of `sem_waitirq.c`.

Modelled from the spec: the macro `DEBUGASSERT` is not among the sources; a
failed assertion is fatal, so the run stops at it. -/
def nxsem_waitirq (env : Env) (wtcb : Nat) (errcode : Int) (σ : Sys) : Run :=
  let flags := env.enter_critical_section
  let entered : List Step :=
    [ ⟨Event.enter_critical_section flags, σ⟩, ⟨Event.read_task_state wtcb, σ⟩ ]
  if (σ.tcbs wtcb).task_state = TSTATE_WAIT_SEM then
    let sem := (σ.tcbs wtcb).waitsem
    let checked : List Step :=
      entered ++ [ ⟨Event.read_waitsem wtcb, σ⟩, ⟨Event.debugassert (assert_cond σ sem), σ⟩ ]
    match sem with
    | none => { sys := σ, trace := checked, status := Status.assertion_failed }
    | some s =>
      if (σ.sems s).semcount.val < 0 then
        nxsem_waitirq_body env wtcb errcode s σ flags checked
      else
        { sys := σ, trace := checked, status := Status.assertion_failed }
  else
    { sys := σ
      trace := entered ++ [ ⟨Event.leave_critical_section flags, σ⟩ ]
      status := Status.returned }

/-- Two calls one after the other: the second starts in the memory the first
left, provided the first returned; a fatal assertion ends the sequence. -/
def Run.and_then (r : Run) (next : Sys → Run) : Run :=
  match r.status with
  | Status.returned =>
    { sys := (next r.sys).sys
      trace := r.trace ++ (next r.sys).trace
      status := (next r.sys).status }
  | Status.assertion_failed => r

/-- Modelled from the spec: the blocking path of `wait` (4.2), whose source is
not among the files here.  When no unit is available the caller decrements
`count`, marks its wait-state blocked-on-semaphore and its wait-target the
semaphore; the suspension itself is the scheduler's. -/
def nxsem_wait_block (σ : Sys) (tcb sem : Nat) : Sys :=
  { tcbs := Function.update σ.tcbs tcb
              ({ σ.tcbs tcb with task_state := TSTATE_WAIT_SEM, waitsem := some sem })
    sems := Function.update σ.sems sem
              ({ σ.sems sem with semcount := (σ.sems sem).semcount.decr }) }

/-! ## Reading a run -/

/-- The actions of a run, in order, without the memory snapshots. -/
def Run.events (r : Run) : List Event := r.trace.map Step.ev

/-- Is the action a call of `nxsem_canceled`? -/
def Event.is_canceled : Event → Bool
  | Event.nxsem_canceled _ _ => true
  | _ => false

/-- Is the action a call of `up_unblock_task`? -/
def Event.is_unblock : Event → Bool
  | Event.up_unblock_task _ => true
  | _ => false

/-- Is the action a write to some `semcount`? -/
def Event.is_write_semcount : Event → Bool
  | Event.write_semcount _ => true
  | _ => false

/-- Is the action a write to some `pterrno`? -/
def Event.is_write_pterrno : Event → Bool
  | Event.write_pterrno _ _ => true
  | _ => false

/-- Is the action a write to some `waitsem`? -/
def Event.is_write_waitsem : Event → Bool
  | Event.write_waitsem _ => true
  | _ => false

/-- Is the action `enter_critical_section`? -/
def Event.is_enter : Event → Bool
  | Event.enter_critical_section _ => true
  | _ => false

/-- Is the action `leave_critical_section`? -/
def Event.is_leave : Event → Bool
  | Event.leave_critical_section _ => true
  | _ => false

/-- The actions are bracketed by the critical section: the first is
`enter_critical_section`, the last is `leave_critical_section` with the flags
value the first returned, and neither occurs again in between, so that every
other action of the run lies between the two. -/
def Bracketed (evs : List Event) : Prop :=
  ∃ flags mid,
    evs = Event.enter_critical_section flags
            :: (mid ++ [Event.leave_critical_section flags]) ∧
    ∀ e ∈ mid, e.is_enter = false ∧ e.is_leave = false

/-- The task is blocked on the semaphore `sem`, as the data model has it:
its wait-state is blocked-on-semaphore, its wait-target is `sem`, and the
count of `sem` is negative (it counts this waiter). -/
def BlockedOn (σ : Sys) (wtcb sem : Nat) : Prop :=
  (σ.tcbs wtcb).task_state = TSTATE_WAIT_SEM ∧
  (σ.tcbs wtcb).waitsem = some sem ∧
  (σ.sems sem).semcount.val < 0

instance (σ : Sys) (wtcb sem : Nat) : Decidable (BlockedOn σ wtcb sem) := by
  unfold BlockedOn
  infer_instance

/-! ## What is assumed of the collaborators -/

/-- The restore step `nxsem_canceled` leaves every semaphore count alone. -/
def CanceledKeepsCounts (env : Env) : Prop :=
  ∀ t s σ s2, ((env.nxsem_canceled t s σ).sems s2).semcount = (σ.sems s2).semcount

/-- The restore step `nxsem_canceled` leaves every wait state alone: no
task changes its `task_state` or its `waitsem`. -/
def CanceledKeepsWaitStates (env : Env) : Prop :=
  ∀ t s σ u, ((env.nxsem_canceled t s σ).tcbs u).task_state = (σ.tcbs u).task_state ∧
    ((env.nxsem_canceled t s σ).tcbs u).waitsem = (σ.tcbs u).waitsem

/-- The scheduler's `up_unblock_task` leaves every semaphore count alone. -/
def UnblockKeepsCounts (env : Env) : Prop :=
  ∀ t σ s2, ((env.up_unblock_task t σ).sems s2).semcount = (σ.sems s2).semcount

/-- The scheduler's `up_unblock_task` writes no task's `waitsem` or `pterrno`. -/
def UnblockKeepsWaitsemPterrno (env : Env) : Prop :=
  ∀ t σ u, ((env.up_unblock_task t σ).tcbs u).waitsem = (σ.tcbs u).waitsem ∧
    ((env.up_unblock_task t σ).tcbs u).pterrno = (σ.tcbs u).pterrno

/-- The scheduler's `up_unblock_task` leaves the task it is given in a state
other than `TSTATE_WAIT_SEM`. -/
def UnblockLeavesWaitSem (env : Env) : Prop :=
  ∀ t σ, ((env.up_unblock_task t σ).tcbs t).task_state ≠ TSTATE_WAIT_SEM

/-- The scheduler's `up_unblock_task` changes the wait state (`task_state`
and `waitsem`) of no task other than the one it is given. -/
def UnblockOnlyTarget (env : Env) : Prop :=
  ∀ t σ u, u ≠ t →
    ((env.up_unblock_task t σ).tcbs u).task_state = (σ.tcbs u).task_state ∧
    ((env.up_unblock_task t σ).tcbs u).waitsem = (σ.tcbs u).waitsem

/-! ## The count/waiter invariant -/

/-- Task `t` is a waiter of `sem`: it is in state `TSTATE_WAIT_SEM` and its
`waitsem` is `sem`. -/
def is_waiter (σ : Sys) (sem t : Nat) : Bool :=
  decide ((σ.tcbs t).task_state = TSTATE_WAIT_SEM ∧ (σ.tcbs t).waitsem = some sem)

/-- The number of waiters of `sem` among the tasks of the system, given as the
list `tasks` of their addresses. -/
def waiters (tasks : List Nat) (σ : Sys) (sem : Nat) : Nat :=
  tasks.countP (is_waiter σ sem)

/-- The invariant of the data model: for each semaphore the number of blocked
tasks whose wait-target it is equals `max (0, -semcount)`. -/
def CountInvariant (tasks : List Nat) (σ : Sys) : Prop :=
  ∀ sem, (waiters tasks σ sem : Int) = max 0 (-(σ.sems sem).semcount.val)

/-- The other half of the data-model invariant: every task of the system that
is in `TSTATE_WAIT_SEM` has a non-NULL `waitsem`. -/
def WaitersHaveTarget (tasks : List Nat) (σ : Sys) : Prop :=
  ∀ t ∈ tasks, (σ.tcbs t).task_state = TSTATE_WAIT_SEM → (σ.tcbs t).waitsem ≠ none

instance (tasks : List Nat) (σ : Sys) : Decidable (WaitersHaveTarget tasks σ) := by
  unfold WaitersHaveTarget
  infer_instance

/-! ## Concrete systems used to exercise the theorems -/

/-- An idle task: ready to run, waiting on nothing. -/
def idle_tcb : tcb_s :=
  { task_state := TSTATE_TASK_READYTORUN, waitsem := none, pterrno := 0,
    sched_priority := 100, base_priority := 100 }

/-- A task blocked on semaphore `sem`. -/
def waiting_tcb (sem : Nat) : tcb_s :=
  { task_state := TSTATE_WAIT_SEM, waitsem := some sem, pterrno := 0,
    sched_priority := 100, base_priority := 100 }

/-- A semaphore without priority protocol holding the count `c`. -/
def plain_sem (c : Int) : sem_t :=
  { semcount := int16_t.ofInt c, protocol := SEM_PRIO_NONE, holders := [] }

/-- A small system: task 0 is blocked on semaphore 0, whose count is -1;
every other task is idle and every other semaphore has count 0. -/
def sys_one_waiter : Sys :=
  { tcbs := fun t => if t = 0 then waiting_tcb 0 else idle_tcb
    sems := fun s => if s = 0 then plain_sem (-1) else plain_sem 0 }

/-- An ill-formed system: task 0 is in `TSTATE_WAIT_SEM` with a NULL
`waitsem`; everything else is at rest. -/
def sys_null_waiter : Sys :=
  { tcbs := fun t =>
      if t = 0 then { idle_tcb with task_state := TSTATE_WAIT_SEM } else idle_tcb
    sems := fun _ => plain_sem 0 }

/-- An ill-formed system: task 0 is in `TSTATE_WAIT_SEM` with `waitsem`
semaphore 0, but the count of semaphore 0 is 0; everything else is at rest. -/
def sys_zero_count_waiter : Sys :=
  { tcbs := fun t => if t = 0 then waiting_tcb 0 else idle_tcb
    sems := fun _ => plain_sem 0 }

/-- A system with a boosted waiter: task 0 is blocked on semaphore 0 (count
-1) and runs at the effective priority 200 over its base priority 100;
everything else is at rest. -/
def sys_boosted_waiter : Sys :=
  { tcbs := fun t =>
      if t = 0 then { waiting_tcb 0 with sched_priority := 200 } else idle_tcb
    sems := fun s => if s = 0 then plain_sem (-1) else plain_sem 0 }

/-- A system at rest: every task idle, every semaphore initialised to 0. -/
def sys_idle : Sys :=
  { tcbs := fun _ => idle_tcb
    sems := fun _ => plain_sem 0 }

/-- A scheduler stand-in: `up_unblock_task` makes the task ready to run,
`nxsem_canceled` resets the task's effective priority to its base priority,
and `enter_critical_section` returns the flags value 7. -/
def env_ready : Env :=
  { enter_critical_section := 7
    nxsem_canceled := fun t _ σ =>
      { σ with
        tcbs := Function.update σ.tcbs t
                  ({ σ.tcbs t with sched_priority := (σ.tcbs t).base_priority }) }
    up_unblock_task := fun t σ =>
      { σ with
        tcbs := Function.update σ.tcbs t
                  ({ σ.tcbs t with task_state := TSTATE_TASK_READYTORUN }) } }

/-- Collaborators that do nothing: `nxsem_canceled` and `up_unblock_task` are
the identity on memory, and `enter_critical_section` returns the flags value 0. -/
def env_identity : Env :=
  { enter_critical_section := 0
    nxsem_canceled := fun _ _ σ => σ
    up_unblock_task := fun _ σ => σ }

/-! ## Theorems -/

/-- C1: on a task whose `task_state` is not `TSTATE_WAIT_SEM` the call is a
no-op for every `errcode`: memory is left as it was (so every semaphore
count, the task's `waitsem` and the task's `pterrno` are unchanged), neither
`nxsem_canceled` nor `up_unblock_task` is invoked, and the call returns. -/
theorem nxsem_waitirq_noop_when_not_waiting (env : Env) (wtcb : Nat) (errcode : Int)
    (σ : Sys) (h : (σ.tcbs wtcb).task_state ≠ TSTATE_WAIT_SEM) :
    (nxsem_waitirq env wtcb errcode σ).sys = σ ∧
    (∀ s, (((nxsem_waitirq env wtcb errcode σ).sys.sems s).semcount = (σ.sems s).semcount)) ∧
    ((nxsem_waitirq env wtcb errcode σ).sys.tcbs wtcb).waitsem = (σ.tcbs wtcb).waitsem ∧
    ((nxsem_waitirq env wtcb errcode σ).sys.tcbs wtcb).pterrno = (σ.tcbs wtcb).pterrno ∧
    (nxsem_waitirq env wtcb errcode σ).events.countP Event.is_canceled = 0 ∧
    (nxsem_waitirq env wtcb errcode σ).events.countP Event.is_unblock = 0 ∧
    (nxsem_waitirq env wtcb errcode σ).events.countP Event.is_write_semcount = 0 ∧
    (nxsem_waitirq env wtcb errcode σ).status = Status.returned := by
  simp [nxsem_waitirq, h, Run.events, Event.is_canceled, Event.is_unblock,
    Event.is_write_semcount]

/-- C1, exercised: task 1 of `sys_one_waiter` is ready to run, and a call on
it with `EINTR` changes nothing and calls nobody. -/
theorem nxsem_waitirq_noop_when_not_waiting_witness :
    (sys_one_waiter.tcbs 1).task_state ≠ TSTATE_WAIT_SEM ∧
    (nxsem_waitirq env_ready 1 EINTR sys_one_waiter).sys = sys_one_waiter ∧
    (nxsem_waitirq env_ready 1 EINTR sys_one_waiter).events.countP Event.is_unblock = 0 :=
  ⟨by decide,
   (nxsem_waitirq_noop_when_not_waiting env_ready 1 EINTR sys_one_waiter (by decide)).1,
   (nxsem_waitirq_noop_when_not_waiting env_ready 1 EINTR sys_one_waiter (by decide)).2.2.2.2.2.1⟩

/-- The stand-in `env_ready` meets every assumption made of the collaborators. -/
theorem env_ready_frame :
    CanceledKeepsCounts env_ready ∧ CanceledKeepsWaitStates env_ready ∧
    UnblockKeepsCounts env_ready ∧ UnblockKeepsWaitsemPterrno env_ready ∧
    UnblockLeavesWaitSem env_ready ∧ UnblockOnlyTarget env_ready := by
  refine ⟨?_, ?_, ?_, ?_, ?_, ?_⟩
  · intro t s σ s2
    rfl
  · intro t s σ u
    by_cases hut : u = t
    · subst hut
      simp [env_ready]
    · simp [env_ready, Function.update_noteq hut]
  · intro t σ s2
    rfl
  · intro t σ u
    by_cases hut : u = t
    · subst hut
      simp [env_ready]
    · simp [env_ready, Function.update_noteq hut]
  · intro t σ
    simp [env_ready]
  · intro t σ u hut
    simp [env_ready, Function.update_noteq hut]

/-- With tasks 0 and 1, `sys_one_waiter` satisfies the count/waiter invariant. -/
theorem sys_one_waiter_invariant : CountInvariant [0, 1] sys_one_waiter := by
  intro sem
  by_cases h : sem = 0
  · subst h
    decide
  · have hne : ¬ (0 = sem) := fun e => h e.symm
    simp [waiters, is_waiter, sys_one_waiter, waiting_tcb, idle_tcb, plain_sem,
      int16_t.ofInt, int16_wrap, h, hne]

/-- The run on a task that is not in `TSTATE_WAIT_SEM`, spelled out. -/
theorem nxsem_waitirq_skip (env : Env) (wtcb : Nat) (errcode : Int) (σ : Sys)
    (h : (σ.tcbs wtcb).task_state ≠ TSTATE_WAIT_SEM) :
    nxsem_waitirq env wtcb errcode σ =
      { sys := σ
        trace := [ ⟨Event.enter_critical_section env.enter_critical_section, σ⟩,
                   ⟨Event.read_task_state wtcb, σ⟩,
                   ⟨Event.leave_critical_section env.enter_critical_section, σ⟩ ]
        status := Status.returned } := by
  simp [nxsem_waitirq, h]

/-- The run on a task blocked on `sem`, spelled out. -/
theorem nxsem_waitirq_blocked (env : Env) (wtcb sem : Nat) (errcode : Int) (σ : Sys)
    (hb : BlockedOn σ wtcb sem) :
    nxsem_waitirq env wtcb errcode σ =
      nxsem_waitirq_body env wtcb errcode sem σ env.enter_critical_section
        [ ⟨Event.enter_critical_section env.enter_critical_section, σ⟩,
          ⟨Event.read_task_state wtcb, σ⟩,
          ⟨Event.read_waitsem wtcb, σ⟩,
          ⟨Event.debugassert true, σ⟩ ] := by
  obtain ⟨h1, h2, h3⟩ := hb
  simp [nxsem_waitirq, h1, h2, h3, assert_cond]

/-- The run on a task in `TSTATE_WAIT_SEM` that is not blocked on any
semaphore with negative count stops at the assertion, memory untouched. -/
theorem nxsem_waitirq_asserts (env : Env) (wtcb : Nat) (errcode : Int) (σ : Sys)
    (h1 : (σ.tcbs wtcb).task_state = TSTATE_WAIT_SEM)
    (h2 : ∀ sem, ¬ BlockedOn σ wtcb sem) :
    nxsem_waitirq env wtcb errcode σ =
      { sys := σ
        trace := [ ⟨Event.enter_critical_section env.enter_critical_section, σ⟩,
                   ⟨Event.read_task_state wtcb, σ⟩,
                   ⟨Event.read_waitsem wtcb, σ⟩,
                   ⟨Event.debugassert false, σ⟩ ]
        status := Status.assertion_failed } := by
  cases hw : (σ.tcbs wtcb).waitsem with
  | none => simp [nxsem_waitirq, h1, hw, assert_cond]
  | some s =>
    have h3 : ¬ (σ.sems s).semcount.val < 0 := fun h => h2 s ⟨h1, hw, h⟩
    simp [nxsem_waitirq, h1, hw, h3, assert_cond]

/-- Every call falls under one of the three descriptions above. -/
theorem nxsem_waitirq_cases (σ : Sys) (wtcb : Nat) :
    (σ.tcbs wtcb).task_state ≠ TSTATE_WAIT_SEM ∨
    (∃ sem, BlockedOn σ wtcb sem) ∨
    ((σ.tcbs wtcb).task_state = TSTATE_WAIT_SEM ∧ ∀ sem, ¬ BlockedOn σ wtcb sem) := by
  by_cases h1 : (σ.tcbs wtcb).task_state = TSTATE_WAIT_SEM
  · by_cases h2 : ∃ sem, BlockedOn σ wtcb sem
    · exact Or.inr (Or.inl h2)
    · exact Or.inr (Or.inr ⟨h1, fun sem hb => h2 ⟨sem, hb⟩⟩)
  · exact Or.inl h1

/-- With collaborators that do nothing, the call changes no `task_state`:
the function itself never writes that field. -/
theorem nxsem_waitirq_keeps_task_state (wtcb : Nat) (errcode : Int) (σ : Sys) :
    ∀ env2 : Env, (∀ t s τ, env2.nxsem_canceled t s τ = τ) →
      (∀ t τ, env2.up_unblock_task t τ = τ) →
      ∀ u, ((nxsem_waitirq env2 wtcb errcode σ).sys.tcbs u).task_state
        = (σ.tcbs u).task_state := by
  intro env2 hc hu u
  rcases nxsem_waitirq_cases σ wtcb with h | ⟨sem, hb⟩ | ⟨h1, h2⟩
  · rw [nxsem_waitirq_skip env2 wtcb errcode σ h]
  · rw [nxsem_waitirq_blocked env2 wtcb sem errcode σ hb]
    simp only [nxsem_waitirq_body, hc, hu]
    by_cases huw : u = wtcb
    · subst huw
      simp [Sys.set_pterrno, Sys.clear_waitsem, Sys.incr_semcount]
    · simp [Sys.set_pterrno, Sys.clear_waitsem, Sys.incr_semcount,
        Function.update_noteq huw]
  · rw [nxsem_waitirq_asserts env2 wtcb errcode σ h1 h2]

/-- In `sys_one_waiter`, task 0 is blocked on semaphore 0. -/
theorem sys_one_waiter_blocked : BlockedOn sys_one_waiter 0 0 := by
  decide

/-- In `sys_boosted_waiter`, task 0 is blocked on semaphore 0. -/
theorem sys_boosted_waiter_blocked : BlockedOn sys_boosted_waiter 0 0 := by
  decide

/-- In `sys_null_waiter`, task 0 is blocked on no semaphore. -/
theorem sys_null_waiter_not_blocked : ∀ sem, ¬ BlockedOn sys_null_waiter 0 sem := by
  intro sem hb
  have h := hb.2.1
  simp [sys_null_waiter, idle_tcb] at h

/-- C2: for a task blocked on `sem` (state `TSTATE_WAIT_SEM`, `waitsem` the
semaphore, `semcount < 0`) the call leaves `sem` with its old count plus one,
whatever the `errcode`; it writes a `semcount` exactly once, that of `sem`,
and the count of every other semaphore is as before.  The restore step and
the scheduler are assumed to leave counts alone. -/
theorem nxsem_waitirq_increments_count_once (env : Env) (wtcb sem : Nat) (errcode : Int)
    (σ : Sys) (hc : CanceledKeepsCounts env) (hu : UnblockKeepsCounts env)
    (hb : BlockedOn σ wtcb sem) :
    (((nxsem_waitirq env wtcb errcode σ).sys.sems sem).semcount.val
      = (σ.sems sem).semcount.val + 1) ∧
    (∀ s, s ≠ sem →
      ((nxsem_waitirq env wtcb errcode σ).sys.sems s).semcount = (σ.sems s).semcount) ∧
    (nxsem_waitirq env wtcb errcode σ).events.countP Event.is_write_semcount = 1 ∧
    (nxsem_waitirq env wtcb errcode σ).events.count (Event.write_semcount sem) = 1 := by
  obtain ⟨h1, h2, h3⟩ := hb
  have hlo := (σ.sems sem).semcount.property.1
  refine ⟨?_, ?_, ?_, ?_⟩
  · simp only [nxsem_waitirq, h1, h2, h3, if_true, nxsem_waitirq_body]
    rw [hu, Sys.set_pterrno, Sys.clear_waitsem, Sys.incr_semcount]
    simp only [Function.update_same, int16_t.incr, int16_t.ofInt, int16_wrap]
    rw [hc]
    omega
  · intro s hs
    simp only [nxsem_waitirq, h1, h2, h3, if_true, nxsem_waitirq_body]
    rw [hu, Sys.set_pterrno, Sys.clear_waitsem, Sys.incr_semcount]
    simp only [Function.update_noteq hs]
    rw [hc]
  · simp [nxsem_waitirq, h1, h2, h3, nxsem_waitirq_body, Run.events,
      Event.is_write_semcount]
  · simp [nxsem_waitirq, h1, h2, h3, nxsem_waitirq_body, Run.events]

/-- C2, exercised: cancelling the one waiter of `sys_one_waiter` takes the
count of semaphore 0 from -1 to 0. -/
theorem nxsem_waitirq_increments_count_once_witness :
    BlockedOn sys_one_waiter 0 0 ∧
    (sys_one_waiter.sems 0).semcount.val = -1 ∧
    ((nxsem_waitirq env_ready 0 EINTR sys_one_waiter).sys.sems 0).semcount.val
      = (sys_one_waiter.sems 0).semcount.val + 1 ∧
    (nxsem_waitirq env_ready 0 EINTR sys_one_waiter).events.countP
      Event.is_write_semcount = 1 :=
  ⟨sys_one_waiter_blocked, by decide,
   (nxsem_waitirq_increments_count_once env_ready 0 0 EINTR sys_one_waiter
      env_ready_frame.1 env_ready_frame.2.2.1 sys_one_waiter_blocked).1,
   (nxsem_waitirq_increments_count_once env_ready 0 0 EINTR sys_one_waiter
      env_ready_frame.1 env_ready_frame.2.2.1 sys_one_waiter_blocked).2.2.1⟩

/-- C3: for a task blocked on a semaphore with negative count and for every
reason code, after the call the task's `waitsem` is NULL and its `pterrno` is
exactly `errcode`.  The scheduler's `up_unblock_task`, which runs after the two
writes, is assumed not to write these fields. -/
theorem nxsem_waitirq_clears_waitsem_sets_pterrno (env : Env) (wtcb sem : Nat)
    (errcode : Int) (σ : Sys) (hu : UnblockKeepsWaitsemPterrno env)
    (hb : BlockedOn σ wtcb sem) :
    ((nxsem_waitirq env wtcb errcode σ).sys.tcbs wtcb).waitsem = none ∧
    ((nxsem_waitirq env wtcb errcode σ).sys.tcbs wtcb).pterrno = errcode := by
  obtain ⟨h1, h2, h3⟩ := hb
  simp only [nxsem_waitirq, h1, h2, h3, if_true, nxsem_waitirq_body]
  rw [(hu _ _ _).1, (hu _ _ _).2]
  simp [Sys.set_pterrno, Sys.clear_waitsem]

/-- C3, exercised: after a timeout on the waiter of `sys_one_waiter` the task
waits on nothing and its `pterrno` is `ETIMEDOUT`. -/
theorem nxsem_waitirq_clears_waitsem_sets_pterrno_witness :
    BlockedOn sys_one_waiter 0 0 ∧
    ((nxsem_waitirq env_ready 0 ETIMEDOUT sys_one_waiter).sys.tcbs 0).waitsem = none ∧
    ((nxsem_waitirq env_ready 0 ETIMEDOUT sys_one_waiter).sys.tcbs 0).pterrno = ETIMEDOUT :=
  ⟨sys_one_waiter_blocked,
   nxsem_waitirq_clears_waitsem_sets_pterrno env_ready 0 0 ETIMEDOUT sys_one_waiter
     env_ready_frame.2.2.2.1 sys_one_waiter_blocked⟩

/-- C6: for a task blocked on a semaphore with negative count the call invokes
`up_unblock_task` exactly once, and that one call has `wtcb` as its argument:
the trace holds one such action, the scheduler is applied to `wtcb` in the
memory left by the restore step and the three writes, the memory on return is
what the scheduler gave back, and where the scheduler takes its task out of
`TSTATE_WAIT_SEM` the task is out of it on return.  For a task in any state
other than `TSTATE_WAIT_SEM` it invokes `up_unblock_task` zero times: no such
action, and the memory on return is the memory on entry. -/
theorem nxsem_waitirq_unblocks_exactly_once (env : Env) (wtcb : Nat) (errcode : Int)
    (σ : Sys) :
    (∀ sem, BlockedOn σ wtcb sem →
      (nxsem_waitirq env wtcb errcode σ).events.countP Event.is_unblock = 1 ∧
      (nxsem_waitirq env wtcb errcode σ).events.count (Event.up_unblock_task wtcb) = 1 ∧
      (∃ (before after : List Step) (σ4 : Sys),
        (nxsem_waitirq env wtcb errcode σ).trace
          = before ++ ⟨Event.up_unblock_task wtcb, σ4⟩ :: after ∧
        σ4 = (((env.nxsem_canceled wtcb sem σ).incr_semcount sem).clear_waitsem
                wtcb).set_pterrno wtcb errcode ∧
        (nxsem_waitirq env wtcb errcode σ).sys = env.up_unblock_task wtcb σ4) ∧
      (UnblockLeavesWaitSem env →
        ((nxsem_waitirq env wtcb errcode σ).sys.tcbs wtcb).task_state ≠ TSTATE_WAIT_SEM)) ∧
    ((σ.tcbs wtcb).task_state ≠ TSTATE_WAIT_SEM →
      (nxsem_waitirq env wtcb errcode σ).events.countP Event.is_unblock = 0 ∧
      (nxsem_waitirq env wtcb errcode σ).sys = σ) := by
  constructor
  · intro sem hb
    rw [nxsem_waitirq_blocked env wtcb sem errcode σ hb]
    refine ⟨?_, ?_, ?_, ?_⟩
    · simp [nxsem_waitirq_body, Run.events, Event.is_unblock]
    · simp [nxsem_waitirq_body, Run.events]
    · exact ⟨[ ⟨Event.enter_critical_section env.enter_critical_section, σ⟩,
               ⟨Event.read_task_state wtcb, σ⟩,
               ⟨Event.read_waitsem wtcb, σ⟩,
               ⟨Event.debugassert true, σ⟩,
               ⟨Event.nxsem_canceled wtcb sem, σ⟩,
               ⟨Event.write_semcount sem, env.nxsem_canceled wtcb sem σ⟩,
               ⟨Event.write_waitsem wtcb, (env.nxsem_canceled wtcb sem σ).incr_semcount sem⟩,
               ⟨Event.write_pterrno wtcb errcode,
                 ((env.nxsem_canceled wtcb sem σ).incr_semcount sem).clear_waitsem wtcb⟩ ],
             _, _, rfl, rfl, rfl⟩
    · intro hul
      exact hul _ _
  · intro h
    rw [nxsem_waitirq_skip env wtcb errcode σ h]
    simp [Run.events, Event.is_unblock]

/-- C6, exercised: on the waiter of `sys_one_waiter` there is one call, the
memory on return is the scheduler's, and the task has left `TSTATE_WAIT_SEM`;
on the idle task 1 there is no call and memory is as on entry. -/
theorem nxsem_waitirq_unblocks_exactly_once_witness :
    (BlockedOn sys_one_waiter 0 0 ∧
      (nxsem_waitirq env_ready 0 EINTR sys_one_waiter).events.count
        (Event.up_unblock_task 0) = 1 ∧
      (nxsem_waitirq env_ready 0 EINTR sys_one_waiter).sys
        = env_ready.up_unblock_task 0
            ((((env_ready.nxsem_canceled 0 0 sys_one_waiter).incr_semcount 0).clear_waitsem
              0).set_pterrno 0 EINTR) ∧
      UnblockLeavesWaitSem env_ready ∧
      ((nxsem_waitirq env_ready 0 EINTR sys_one_waiter).sys.tcbs 0).task_state
        ≠ TSTATE_WAIT_SEM) ∧
    ((sys_one_waiter.tcbs 1).task_state ≠ TSTATE_WAIT_SEM ∧
      (nxsem_waitirq env_ready 1 EINTR sys_one_waiter).events.countP Event.is_unblock = 0 ∧
      (nxsem_waitirq env_ready 1 EINTR sys_one_waiter).sys = sys_one_waiter) :=
  ⟨⟨sys_one_waiter_blocked,
    ((nxsem_waitirq_unblocks_exactly_once env_ready 0 EINTR sys_one_waiter).1 0
      sys_one_waiter_blocked).2.1,
    (by
      obtain ⟨_, _, σ4, _, h4, hsys⟩ :=
        ((nxsem_waitirq_unblocks_exactly_once env_ready 0 EINTR sys_one_waiter).1 0
          sys_one_waiter_blocked).2.2.1
      rw [hsys, h4]),
    env_ready_frame.2.2.2.2.1,
    ((nxsem_waitirq_unblocks_exactly_once env_ready 0 EINTR sys_one_waiter).1 0
      sys_one_waiter_blocked).2.2.2 env_ready_frame.2.2.2.2.1⟩,
   ⟨by decide,
    (nxsem_waitirq_unblocks_exactly_once env_ready 1 EINTR sys_one_waiter).2 (by decide)⟩⟩

/-- C5: cancellation is idempotent.  For every state and reason codes `e1`,
`e2`, calling `nxsem_waitirq (wtcb, e1)` and then `nxsem_waitirq (wtcb, e2)`
leaves the memory the first call alone leaves; both calls together write a
`semcount` as often as the first alone, at most once; and where the task was
blocked and the scheduler does not write `waitsem` or `pterrno`, `pterrno` is
still `e1` and `waitsem` still NULL.  Assumed: `up_unblock_task` leaves the
task in a state other than `TSTATE_WAIT_SEM`; the function itself never
writes `task_state` (with collaborators that do nothing, no `task_state`
changes), so the property rests on that assumption. -/
theorem nxsem_waitirq_idempotent (env : Env) (wtcb : Nat) (e1 e2 : Int) (σ : Sys)
    (hul : UnblockLeavesWaitSem env) :
    ((nxsem_waitirq env wtcb e1 σ).and_then (nxsem_waitirq env wtcb e2)).sys
      = (nxsem_waitirq env wtcb e1 σ).sys ∧
    ((nxsem_waitirq env wtcb e1 σ).and_then (nxsem_waitirq env wtcb e2)).status
      = (nxsem_waitirq env wtcb e1 σ).status ∧
    ((nxsem_waitirq env wtcb e1 σ).and_then
        (nxsem_waitirq env wtcb e2)).events.countP Event.is_write_semcount
      = (nxsem_waitirq env wtcb e1 σ).events.countP Event.is_write_semcount ∧
    ((nxsem_waitirq env wtcb e1 σ).and_then
        (nxsem_waitirq env wtcb e2)).events.countP Event.is_write_semcount ≤ 1 ∧
    (∀ sem, BlockedOn σ wtcb sem → UnblockKeepsWaitsemPterrno env →
      (((nxsem_waitirq env wtcb e1 σ).and_then
          (nxsem_waitirq env wtcb e2)).sys.tcbs wtcb).pterrno = e1 ∧
      (((nxsem_waitirq env wtcb e1 σ).and_then
          (nxsem_waitirq env wtcb e2)).sys.tcbs wtcb).waitsem = none) ∧
    (∀ env2 : Env, (∀ t s τ, env2.nxsem_canceled t s τ = τ) →
      (∀ t τ, env2.up_unblock_task t τ = τ) →
      ∀ u, ((nxsem_waitirq env2 wtcb e1 σ).sys.tcbs u).task_state
        = (σ.tcbs u).task_state) := by
  rw [← and_assoc, ← and_assoc, ← and_assoc, ← and_assoc]
  refine ⟨?_, nxsem_waitirq_keeps_task_state wtcb e1 σ⟩
  simp only [and_assoc]
  rcases nxsem_waitirq_cases σ wtcb with h | ⟨sem, hb⟩ | ⟨h1, h2⟩
  · have hno : ∀ s, ¬ BlockedOn σ wtcb s := fun s hs => h hs.1
    rw [nxsem_waitirq_skip env wtcb e1 σ h]
    simp [Run.and_then, nxsem_waitirq_skip env wtcb e2 σ h, Run.events,
      Event.is_write_semcount, hno]
  · rw [nxsem_waitirq_blocked env wtcb sem e1 σ hb]
    simp only [nxsem_waitirq_body, Run.and_then]
    rw [nxsem_waitirq_skip env wtcb e2 _ (hul _ _)]
    refine ⟨rfl, rfl, ?_, ?_, ?_⟩
    · simp [Run.events, Event.is_write_semcount]
    · simp [Run.events, Event.is_write_semcount]
    · intro s _ hu
      simp only []
      rw [(hu _ _ _).1, (hu _ _ _).2]
      simp [Sys.set_pterrno, Sys.clear_waitsem]
  · rw [nxsem_waitirq_asserts env wtcb e1 σ h1 h2]
    simp [Run.and_then, Run.events, Event.is_write_semcount, h2]

/-- C5, exercised: a signal and then a timeout on the waiter of
`sys_one_waiter` leave what the signal alone leaves, with `pterrno` the
signal's `EINTR`. -/
theorem nxsem_waitirq_idempotent_witness :
    UnblockLeavesWaitSem env_ready ∧
    ((nxsem_waitirq env_ready 0 EINTR sys_one_waiter).and_then
        (nxsem_waitirq env_ready 0 ETIMEDOUT)).sys
      = (nxsem_waitirq env_ready 0 EINTR sys_one_waiter).sys ∧
    (((nxsem_waitirq env_ready 0 EINTR sys_one_waiter).and_then
        (nxsem_waitirq env_ready 0 ETIMEDOUT)).sys.tcbs 0).pterrno = EINTR :=
  ⟨env_ready_frame.2.2.2.2.1,
   (nxsem_waitirq_idempotent env_ready 0 EINTR ETIMEDOUT sys_one_waiter
      env_ready_frame.2.2.2.2.1).1,
   ((nxsem_waitirq_idempotent env_ready 0 EINTR ETIMEDOUT sys_one_waiter
      env_ready_frame.2.2.2.2.1).2.2.2.2.1 0 sys_one_waiter_blocked
      env_ready_frame.2.2.2.1).1⟩

/-- C7: cancelling a wait undoes the wait's decrement.  For a semaphore with
count `c ≤ 0` that can still be decremented (`c` is not the least 16-bit
value), when a task blocks on it the count becomes `c - 1` and the task is
blocked on the semaphore; if `nxsem_waitirq` is then called on that task, the
count is `c` again, the task has no wait-target and its `pterrno` is the
reason code.  In particular, from
count 0 the one waiter brings the count to -1, and `nxsem_waitirq` with
`ETIMEDOUT` leaves count 0 and `pterrno` `ETIMEDOUT`.  The restore step and
the scheduler are assumed to leave counts, `waitsem` and `pterrno` alone. -/
theorem nxsem_waitirq_undoes_wait (env : Env) (wtcb sem : Nat) (errcode : Int) (σ : Sys)
    (hcc : CanceledKeepsCounts env) (huc : UnblockKeepsCounts env)
    (huw : UnblockKeepsWaitsemPterrno env)
    (hle : (σ.sems sem).semcount.val ≤ 0)
    (hroom : -32768 < (σ.sems sem).semcount.val) :
    ((nxsem_wait_block σ wtcb sem).sems sem).semcount.val
      = (σ.sems sem).semcount.val - 1 ∧
    BlockedOn (nxsem_wait_block σ wtcb sem) wtcb sem ∧
    ((nxsem_waitirq env wtcb errcode (nxsem_wait_block σ wtcb sem)).sys.sems sem).semcount
      = (σ.sems sem).semcount ∧
    ((nxsem_waitirq env wtcb errcode (nxsem_wait_block σ wtcb sem)).sys.tcbs wtcb).waitsem
      = none ∧
    ((nxsem_waitirq env wtcb errcode (nxsem_wait_block σ wtcb sem)).sys.tcbs wtcb).pterrno
      = errcode ∧
    ((σ.sems sem).semcount.val = 0 →
      ((nxsem_wait_block σ wtcb sem).sems sem).semcount.val = -1 ∧
      ((nxsem_waitirq env wtcb ETIMEDOUT (nxsem_wait_block σ wtcb sem)).sys.sems
        sem).semcount.val = 0 ∧
      ((nxsem_waitirq env wtcb ETIMEDOUT (nxsem_wait_block σ wtcb sem)).sys.tcbs
        wtcb).pterrno = ETIMEDOUT) := by
  have hdec : ((nxsem_wait_block σ wtcb sem).sems sem).semcount.val
      = (σ.sems sem).semcount.val - 1 := by
    simp only [nxsem_wait_block, Function.update_same, int16_t.decr, int16_t.ofInt,
      int16_wrap]
    omega
  have hb : BlockedOn (nxsem_wait_block σ wtcb sem) wtcb sem := by
    refine ⟨?_, ?_, ?_⟩
    · simp [nxsem_wait_block]
    · simp [nxsem_wait_block]
    · rw [hdec]
      omega
  have hcount : ∀ e, ((nxsem_waitirq env wtcb e
      (nxsem_wait_block σ wtcb sem)).sys.sems sem).semcount.val = (σ.sems sem).semcount.val := by
    intro e
    have hlo := (nxsem_wait_block σ wtcb sem |>.sems sem).semcount.property.1
    rw [nxsem_waitirq_blocked env wtcb sem e _ hb]
    simp only [nxsem_waitirq_body]
    rw [huc, Sys.set_pterrno, Sys.clear_waitsem, Sys.incr_semcount]
    simp only [Function.update_same, int16_t.incr, int16_t.ofInt, int16_wrap]
    rw [hcc]
    omega
  have herr : ∀ e, ((nxsem_waitirq env wtcb e
      (nxsem_wait_block σ wtcb sem)).sys.tcbs wtcb).waitsem = none ∧
      ((nxsem_waitirq env wtcb e
      (nxsem_wait_block σ wtcb sem)).sys.tcbs wtcb).pterrno = e := by
    intro e
    rw [nxsem_waitirq_blocked env wtcb sem e _ hb]
    simp only [nxsem_waitirq_body]
    rw [(huw _ _ _).1, (huw _ _ _).2]
    simp [Sys.set_pterrno, Sys.clear_waitsem]
  refine ⟨hdec, hb, Subtype.ext (hcount errcode), (herr errcode).1, (herr errcode).2, ?_⟩
  intro h0
  refine ⟨?_, ?_, (herr ETIMEDOUT).2⟩
  · rw [hdec, h0]
    rfl
  · rw [hcount ETIMEDOUT, h0]

/-- C7, exercised: in `sys_idle` task 0 blocks on semaphore 0 (count 0, then
-1); the timeout brings the count back to 0 and leaves `ETIMEDOUT`. -/
theorem nxsem_waitirq_undoes_wait_witness :
    (sys_idle.sems 0).semcount.val ≤ 0 ∧
    -32768 < (sys_idle.sems 0).semcount.val ∧
    ((nxsem_waitirq env_ready 0 ETIMEDOUT (nxsem_wait_block sys_idle 0 0)).sys.sems
      0).semcount.val = 0 ∧
    ((nxsem_waitirq env_ready 0 ETIMEDOUT (nxsem_wait_block sys_idle 0 0)).sys.tcbs
      0).pterrno = ETIMEDOUT :=
  ⟨by decide, by decide,
   ((nxsem_waitirq_undoes_wait env_ready 0 0 ETIMEDOUT sys_idle env_ready_frame.1
      env_ready_frame.2.2.1 env_ready_frame.2.2.2.1 (by decide) (by decide)).2.2.2.2.2
      (by decide)).2.1,
   (nxsem_waitirq_undoes_wait env_ready 0 0 ETIMEDOUT sys_idle env_ready_frame.1
      env_ready_frame.2.2.1 env_ready_frame.2.2.2.1 (by decide) (by decide)).2.2.2.2.1⟩

/-- C8: a timed-out wait and an interrupted wait are distinguishable and
otherwise identical.  From one state with the task blocked on a semaphore, the
run with `EINTR` and the run with `ETIMEDOUT` end with `pterrno` equal to
`EINTR` and to `ETIMEDOUT`, which differ; they agree on every semaphore count,
on every task's `waitsem`, on how the call ended, on the calls of
`nxsem_canceled` and `up_unblock_task`, and on every action but the write of
`pterrno`; and the scheduler is handed memories that differ in that write
only.  The scheduler is assumed not to write counts, `waitsem` or `pterrno`. -/
theorem nxsem_waitirq_eintr_etimedout (env : Env) (wtcb sem : Nat) (σ : Sys)
    (huc : UnblockKeepsCounts env) (huw : UnblockKeepsWaitsemPterrno env)
    (hb : BlockedOn σ wtcb sem) :
    ((nxsem_waitirq env wtcb EINTR σ).sys.tcbs wtcb).pterrno = EINTR ∧
    ((nxsem_waitirq env wtcb ETIMEDOUT σ).sys.tcbs wtcb).pterrno = ETIMEDOUT ∧
    ((nxsem_waitirq env wtcb EINTR σ).sys.tcbs wtcb).pterrno
      ≠ ((nxsem_waitirq env wtcb ETIMEDOUT σ).sys.tcbs wtcb).pterrno ∧
    (∀ s, ((nxsem_waitirq env wtcb EINTR σ).sys.sems s).semcount
      = ((nxsem_waitirq env wtcb ETIMEDOUT σ).sys.sems s).semcount) ∧
    (∀ u, ((nxsem_waitirq env wtcb EINTR σ).sys.tcbs u).waitsem
      = ((nxsem_waitirq env wtcb ETIMEDOUT σ).sys.tcbs u).waitsem) ∧
    (nxsem_waitirq env wtcb EINTR σ).status = (nxsem_waitirq env wtcb ETIMEDOUT σ).status ∧
    (nxsem_waitirq env wtcb EINTR σ).events.filter Event.is_canceled
      = (nxsem_waitirq env wtcb ETIMEDOUT σ).events.filter Event.is_canceled ∧
    (nxsem_waitirq env wtcb EINTR σ).events.filter Event.is_unblock
      = (nxsem_waitirq env wtcb ETIMEDOUT σ).events.filter Event.is_unblock ∧
    (nxsem_waitirq env wtcb EINTR σ).events.filter (fun e => !e.is_write_pterrno)
      = (nxsem_waitirq env wtcb ETIMEDOUT σ).events.filter (fun e => !e.is_write_pterrno) ∧
    (∃ σ3 : Sys, (nxsem_waitirq env wtcb EINTR σ).sys
        = env.up_unblock_task wtcb (σ3.set_pterrno wtcb EINTR) ∧
      (nxsem_waitirq env wtcb ETIMEDOUT σ).sys
        = env.up_unblock_task wtcb (σ3.set_pterrno wtcb ETIMEDOUT)) := by
  rw [nxsem_waitirq_blocked env wtcb sem EINTR σ hb,
    nxsem_waitirq_blocked env wtcb sem ETIMEDOUT σ hb]
  simp only [nxsem_waitirq_body]
  have hI : ((env.up_unblock_task wtcb
      ((((env.nxsem_canceled wtcb sem σ).incr_semcount sem).clear_waitsem
        wtcb).set_pterrno wtcb EINTR)).tcbs wtcb).pterrno = EINTR := by
    rw [(huw _ _ _).2]
    simp [Sys.set_pterrno]
  have hT : ((env.up_unblock_task wtcb
      ((((env.nxsem_canceled wtcb sem σ).incr_semcount sem).clear_waitsem
        wtcb).set_pterrno wtcb ETIMEDOUT)).tcbs wtcb).pterrno = ETIMEDOUT := by
    rw [(huw _ _ _).2]
    simp [Sys.set_pterrno]
  refine ⟨hI, hT, ?_, ?_, ?_, trivial, ?_, ?_, ?_, ⟨_, rfl, rfl⟩⟩
  · rw [hI, hT]
    decide
  · intro s
    rw [huc, huc]
    rfl
  · intro u
    rw [(huw _ _ _).1, (huw _ _ _).1]
    by_cases hu : u = wtcb
    · subst hu
      simp [Sys.set_pterrno]
    · simp [Sys.set_pterrno, Function.update_noteq hu]
  · simp [Run.events, Event.is_canceled]
  · simp [Run.events, Event.is_unblock]
  · simp [Run.events, Event.is_write_pterrno]

/-- C8, exercised: on the waiter of `sys_one_waiter` the two reason codes are
told apart by `pterrno` and the counts agree. -/
theorem nxsem_waitirq_eintr_etimedout_witness :
    BlockedOn sys_one_waiter 0 0 ∧
    ((nxsem_waitirq env_ready 0 EINTR sys_one_waiter).sys.tcbs 0).pterrno
      ≠ ((nxsem_waitirq env_ready 0 ETIMEDOUT sys_one_waiter).sys.tcbs 0).pterrno ∧
    (∀ s, ((nxsem_waitirq env_ready 0 EINTR sys_one_waiter).sys.sems s).semcount
      = ((nxsem_waitirq env_ready 0 ETIMEDOUT sys_one_waiter).sys.sems s).semcount) :=
  ⟨sys_one_waiter_blocked,
   (nxsem_waitirq_eintr_etimedout env_ready 0 0 sys_one_waiter env_ready_frame.2.2.1
      env_ready_frame.2.2.2.1 sys_one_waiter_blocked).2.2.1,
   (nxsem_waitirq_eintr_etimedout env_ready 0 0 sys_one_waiter env_ready_frame.2.2.1
      env_ready_frame.2.2.2.1 sys_one_waiter_blocked).2.2.2.1⟩

/-- C9, as stated, fails: on a task in `TSTATE_WAIT_SEM` whose `waitsem` is
NULL the run stops at the assertion, and `leave_critical_section` is never
called, so the actions are not bracketed by the critical section. -/
theorem nxsem_waitirq_not_always_bracketed :
    (sys_null_waiter.tcbs 0).task_state = TSTATE_WAIT_SEM ∧
    (nxsem_waitirq env_ready 0 EINTR sys_null_waiter).status = Status.assertion_failed ∧
    (nxsem_waitirq env_ready 0 EINTR sys_null_waiter).events.countP Event.is_leave = 0 ∧
    ¬ Bracketed (nxsem_waitirq env_ready 0 EINTR sys_null_waiter).events := by
  refine ⟨by decide, by decide, by decide, ?_⟩
  rintro ⟨flags, mid, h, _⟩
  have hev : (nxsem_waitirq env_ready 0 EINTR sys_null_waiter).events
      = [Event.enter_critical_section 7, Event.read_task_state 0, Event.read_waitsem 0,
         Event.debugassert false] := by
    decide
  rw [hev] at h
  have hrev := congrArg List.reverse h
  simp at hrev

/-- C9, amended: in every execution in which the assertion does not fail (the
task is not in `TSTATE_WAIT_SEM`, or it is blocked on a semaphore with negative
count) the call returns and its actions are bracketed: `enter_critical_section`
once and first, `leave_critical_section` once and last with the flags value
returned by `enter_critical_section`, every read, write and call in between.
In an execution stopped by the assertion, `enter_critical_section` is still
the first action and called once, memory is untouched, no call of
`nxsem_canceled` or `up_unblock_task` is made, and `leave_critical_section` is
not called. -/
theorem nxsem_waitirq_critical_section (env : Env) (wtcb : Nat) (errcode : Int) (σ : Sys) :
    (((σ.tcbs wtcb).task_state ≠ TSTATE_WAIT_SEM ∨ ∃ sem, BlockedOn σ wtcb sem) →
      (nxsem_waitirq env wtcb errcode σ).status = Status.returned ∧
      Bracketed (nxsem_waitirq env wtcb errcode σ).events ∧
      (nxsem_waitirq env wtcb errcode σ).events.head?
        = some (Event.enter_critical_section env.enter_critical_section) ∧
      (nxsem_waitirq env wtcb errcode σ).events.getLast?
        = some (Event.leave_critical_section env.enter_critical_section) ∧
      (nxsem_waitirq env wtcb errcode σ).events.countP Event.is_enter = 1 ∧
      (nxsem_waitirq env wtcb errcode σ).events.countP Event.is_leave = 1) ∧
    (((σ.tcbs wtcb).task_state = TSTATE_WAIT_SEM ∧ ∀ sem, ¬ BlockedOn σ wtcb sem) →
      (nxsem_waitirq env wtcb errcode σ).status = Status.assertion_failed ∧
      (nxsem_waitirq env wtcb errcode σ).sys = σ ∧
      (nxsem_waitirq env wtcb errcode σ).events.head?
        = some (Event.enter_critical_section env.enter_critical_section) ∧
      (nxsem_waitirq env wtcb errcode σ).events.countP Event.is_enter = 1 ∧
      (nxsem_waitirq env wtcb errcode σ).events.countP Event.is_leave = 0 ∧
      (nxsem_waitirq env wtcb errcode σ).events.countP Event.is_canceled = 0 ∧
      (nxsem_waitirq env wtcb errcode σ).events.countP Event.is_unblock = 0) := by
  constructor
  · rintro (h | ⟨sem, hb⟩)
    · rw [nxsem_waitirq_skip env wtcb errcode σ h]
      refine ⟨rfl, ⟨env.enter_critical_section, [Event.read_task_state wtcb], rfl, ?_⟩,
        rfl, rfl, ?_, ?_⟩
      · intro e he
        rw [List.mem_singleton] at he
        subst he
        exact ⟨rfl, rfl⟩
      · simp [Run.events, Event.is_enter]
      · simp [Run.events, Event.is_leave]
    · rw [nxsem_waitirq_blocked env wtcb sem errcode σ hb]
      refine ⟨rfl, ⟨env.enter_critical_section,
        [Event.read_task_state wtcb, Event.read_waitsem wtcb, Event.debugassert true,
         Event.nxsem_canceled wtcb sem, Event.write_semcount sem, Event.write_waitsem wtcb,
         Event.write_pterrno wtcb errcode, Event.up_unblock_task wtcb], rfl, ?_⟩,
        rfl, rfl, ?_, ?_⟩
      · intro e he
        simp only [List.mem_cons, List.mem_singleton, List.not_mem_nil, or_false] at he
        rcases he with h | h | h | h | h | h | h | h <;> subst h <;> exact ⟨rfl, rfl⟩
      · simp [nxsem_waitirq_body, Run.events, Event.is_enter]
      · simp [nxsem_waitirq_body, Run.events, Event.is_leave]
  · rintro ⟨h1, h2⟩
    rw [nxsem_waitirq_asserts env wtcb errcode σ h1 h2]
    simp [Run.events, Event.is_enter, Event.is_leave, Event.is_canceled, Event.is_unblock]

/-- C9 amended, exercised: the run on the waiter of `sys_one_waiter` is
bracketed, and the run on the ill-formed waiter of `sys_null_waiter` stops at
the assertion with memory untouched. -/
theorem nxsem_waitirq_critical_section_witness :
    (∃ sem, BlockedOn sys_one_waiter 0 sem) ∧
    Bracketed (nxsem_waitirq env_ready 0 EINTR sys_one_waiter).events ∧
    ((sys_null_waiter.tcbs 0).task_state = TSTATE_WAIT_SEM ∧
      ∀ sem, ¬ BlockedOn sys_null_waiter 0 sem) ∧
    (nxsem_waitirq env_ready 0 EINTR sys_null_waiter).sys = sys_null_waiter :=
  ⟨⟨0, sys_one_waiter_blocked⟩,
   ((nxsem_waitirq_critical_section env_ready 0 EINTR sys_one_waiter).1
      (Or.inr ⟨0, sys_one_waiter_blocked⟩)).2.1,
   ⟨by decide, sys_null_waiter_not_blocked⟩,
   ((nxsem_waitirq_critical_section env_ready 0 EINTR sys_null_waiter).2
      ⟨by decide, sys_null_waiter_not_blocked⟩).2.1⟩

/-- C10: the semaphore is reconciled before the error is surfaced.  In the
run on a task blocked on `sem`, the trace splits at the one call of
`up_unblock_task (wtcb)`: the call of `nxsem_canceled`, the write of
`semcount`, the clearing of `waitsem` and the write of `pterrno` all come
before it, only `leave_critical_section` comes after it, and the memory in
which the scheduler is called already has the old count plus one, `waitsem`
NULL and `pterrno` equal to `errcode`.  The restore step is assumed to leave
counts alone. -/
theorem nxsem_waitirq_reconciles_before_unblock (env : Env) (wtcb sem : Nat)
    (errcode : Int) (σ : Sys) (hcc : CanceledKeepsCounts env)
    (hb : BlockedOn σ wtcb sem) :
    ∃ (before after : List Step) (σ4 : Sys),
      (nxsem_waitirq env wtcb errcode σ).trace
        = before ++ ⟨Event.up_unblock_task wtcb, σ4⟩ :: after ∧
      (nxsem_waitirq env wtcb errcode σ).sys = env.up_unblock_task wtcb σ4 ∧
      Event.nxsem_canceled wtcb sem ∈ before.map Step.ev ∧
      Event.write_semcount sem ∈ before.map Step.ev ∧
      Event.write_waitsem wtcb ∈ before.map Step.ev ∧
      Event.write_pterrno wtcb errcode ∈ before.map Step.ev ∧
      (∀ e ∈ before.map Step.ev, e.is_unblock = false) ∧
      (∀ e ∈ after.map Step.ev, e.is_leave = true) ∧
      (σ4.sems sem).semcount.val = (σ.sems sem).semcount.val + 1 ∧
      (σ4.tcbs wtcb).waitsem = none ∧
      (σ4.tcbs wtcb).pterrno = errcode := by
  have hlo := (σ.sems sem).semcount.property.1
  have h3 := hb.2.2
  rw [nxsem_waitirq_blocked env wtcb sem errcode σ hb]
  refine ⟨[ ⟨Event.enter_critical_section env.enter_critical_section, σ⟩,
            ⟨Event.read_task_state wtcb, σ⟩,
            ⟨Event.read_waitsem wtcb, σ⟩,
            ⟨Event.debugassert true, σ⟩,
            ⟨Event.nxsem_canceled wtcb sem, σ⟩,
            ⟨Event.write_semcount sem, env.nxsem_canceled wtcb sem σ⟩,
            ⟨Event.write_waitsem wtcb, (env.nxsem_canceled wtcb sem σ).incr_semcount sem⟩,
            ⟨Event.write_pterrno wtcb errcode,
              ((env.nxsem_canceled wtcb sem σ).incr_semcount sem).clear_waitsem wtcb⟩ ],
          [ ⟨Event.leave_critical_section env.enter_critical_section,
              env.up_unblock_task wtcb
                ((((env.nxsem_canceled wtcb sem σ).incr_semcount sem).clear_waitsem
                  wtcb).set_pterrno wtcb errcode)⟩ ],
          (((env.nxsem_canceled wtcb sem σ).incr_semcount sem).clear_waitsem
            wtcb).set_pterrno wtcb errcode,
          rfl, rfl, ?_, ?_, ?_, ?_, ?_, ?_, ?_, ?_, ?_⟩
  · simp
  · simp
  · simp
  · simp
  · intro e he
    simp only [List.map_cons, List.map_nil, List.mem_cons, List.mem_singleton,
      List.not_mem_nil, or_false] at he
    rcases he with h | h | h | h | h | h | h | h <;> subst h <;> rfl
  · intro e he
    simp only [List.map_cons, List.map_nil, List.mem_singleton] at he
    subst he
    rfl
  · simp only [Sys.set_pterrno, Sys.clear_waitsem, Sys.incr_semcount,
      Function.update_same, int16_t.incr, int16_t.ofInt, int16_wrap]
    rw [hcc]
    omega
  · simp [Sys.set_pterrno, Sys.clear_waitsem]
  · simp [Sys.set_pterrno]

/-- C10, exercised: on the waiter of `sys_one_waiter` the scheduler is called
in a memory where the count of semaphore 0 is already 0, the task waits on
nothing and its `pterrno` is `EINTR`. -/
theorem nxsem_waitirq_reconciles_before_unblock_witness :
    BlockedOn sys_one_waiter 0 0 ∧
    ∃ (before after : List Step) (σ4 : Sys),
      (nxsem_waitirq env_ready 0 EINTR sys_one_waiter).trace
        = before ++ ⟨Event.up_unblock_task 0, σ4⟩ :: after ∧
      (nxsem_waitirq env_ready 0 EINTR sys_one_waiter).sys = env_ready.up_unblock_task 0 σ4 ∧
      Event.nxsem_canceled 0 0 ∈ before.map Step.ev ∧
      Event.write_semcount 0 ∈ before.map Step.ev ∧
      Event.write_waitsem 0 ∈ before.map Step.ev ∧
      Event.write_pterrno 0 EINTR ∈ before.map Step.ev ∧
      (∀ e ∈ before.map Step.ev, e.is_unblock = false) ∧
      (∀ e ∈ after.map Step.ev, e.is_leave = true) ∧
      (σ4.sems 0).semcount.val = (sys_one_waiter.sems 0).semcount.val + 1 ∧
      (σ4.tcbs 0).waitsem = none ∧
      (σ4.tcbs 0).pterrno = EINTR :=
  ⟨sys_one_waiter_blocked,
   nxsem_waitirq_reconciles_before_unblock env_ready 0 0 EINTR sys_one_waiter
     env_ready_frame.1 sys_one_waiter_blocked⟩

/-- C11, as stated, fails: task 1 of `sys_one_waiter` has no wait-target and is
not in `TSTATE_WAIT_SEM`, yet the call on it does not end in an assertion
failure: it returns. -/
theorem nxsem_waitirq_not_waiting_is_not_fatal :
    (sys_one_waiter.tcbs 1).waitsem = none ∧
    (sys_one_waiter.tcbs 1).task_state ≠ TSTATE_WAIT_SEM ∧
    (nxsem_waitirq env_ready 1 EINTR sys_one_waiter).status = Status.returned ∧
    (nxsem_waitirq env_ready 1 EINTR sys_one_waiter).status ≠ Status.assertion_failed := by
  decide

/-- C11, amended: for every task in `TSTATE_WAIT_SEM` whose `waitsem` is NULL
or whose wait-target's count is not negative, the call ends in an assertion
failure and does not increment the count, clear `waitsem`, set `pterrno` or
unblock the task.  For a task whose state is not `TSTATE_WAIT_SEM` the call is
no assertion failure: it returns, likewise without incrementing the count,
clearing `waitsem`, setting `pterrno` or unblocking the task. -/
theorem nxsem_waitirq_fatal_or_noop (env : Env) (wtcb : Nat) (errcode : Int) (σ : Sys) :
    (((σ.tcbs wtcb).task_state = TSTATE_WAIT_SEM ∧
        ((σ.tcbs wtcb).waitsem = none ∨
          ∃ sem, (σ.tcbs wtcb).waitsem = some sem ∧ 0 ≤ (σ.sems sem).semcount.val)) →
      (nxsem_waitirq env wtcb errcode σ).status = Status.assertion_failed ∧
      (nxsem_waitirq env wtcb errcode σ).sys = σ ∧
      (nxsem_waitirq env wtcb errcode σ).events.countP Event.is_write_semcount = 0 ∧
      (nxsem_waitirq env wtcb errcode σ).events.countP Event.is_write_waitsem = 0 ∧
      (nxsem_waitirq env wtcb errcode σ).events.countP Event.is_write_pterrno = 0 ∧
      (nxsem_waitirq env wtcb errcode σ).events.countP Event.is_unblock = 0) ∧
    ((σ.tcbs wtcb).task_state ≠ TSTATE_WAIT_SEM →
      (nxsem_waitirq env wtcb errcode σ).status = Status.returned ∧
      (nxsem_waitirq env wtcb errcode σ).sys = σ ∧
      (nxsem_waitirq env wtcb errcode σ).events.countP Event.is_write_semcount = 0 ∧
      (nxsem_waitirq env wtcb errcode σ).events.countP Event.is_write_waitsem = 0 ∧
      (nxsem_waitirq env wtcb errcode σ).events.countP Event.is_write_pterrno = 0 ∧
      (nxsem_waitirq env wtcb errcode σ).events.countP Event.is_unblock = 0) := by
  constructor
  · rintro ⟨h1, h2⟩
    have hno : ∀ sem, ¬ BlockedOn σ wtcb sem := by
      rintro sem ⟨_, hw, hc⟩
      rcases h2 with hn | ⟨s, hs, hge⟩
      · rw [hn] at hw
        exact Option.noConfusion hw
      · rw [hs] at hw
        have hss : s = sem := Option.some.inj hw
        subst hss
        omega
    rw [nxsem_waitirq_asserts env wtcb errcode σ h1 hno]
    simp [Run.events, Event.is_write_semcount, Event.is_write_waitsem,
      Event.is_write_pterrno, Event.is_unblock]
  · intro h
    rw [nxsem_waitirq_skip env wtcb errcode σ h]
    simp [Run.events, Event.is_write_semcount, Event.is_write_waitsem,
      Event.is_write_pterrno, Event.is_unblock]

/-- C11 amended, exercised: the waiter of `sys_zero_count_waiter`, whose
semaphore has count 0, runs into the assertion; the idle task 1 of
`sys_one_waiter` does not. -/
theorem nxsem_waitirq_fatal_or_noop_witness :
    ((sys_zero_count_waiter.tcbs 0).task_state = TSTATE_WAIT_SEM ∧
      (sys_zero_count_waiter.tcbs 0).waitsem = some 0 ∧
      0 ≤ (sys_zero_count_waiter.sems 0).semcount.val) ∧
    (nxsem_waitirq env_ready 0 EINTR sys_zero_count_waiter).status
      = Status.assertion_failed ∧
    (sys_one_waiter.tcbs 1).task_state ≠ TSTATE_WAIT_SEM ∧
    (nxsem_waitirq env_ready 1 EINTR sys_one_waiter).status = Status.returned :=
  ⟨by decide,
   ((nxsem_waitirq_fatal_or_noop env_ready 0 EINTR sys_zero_count_waiter).1
      ⟨by decide, Or.inr ⟨0, by decide, by decide⟩⟩).1,
   by decide,
   ((nxsem_waitirq_fatal_or_noop env_ready 1 EINTR sys_one_waiter).2 (by decide)).1⟩

/-- C12, as stated, fails: task 0 of `sys_null_waiter` is in
`TSTATE_WAIT_SEM`, but its `waitsem` is NULL, the run stops at the assertion
and `nxsem_canceled` is not invoked at all. -/
theorem nxsem_waitirq_canceled_not_always_called :
    (sys_null_waiter.tcbs 0).task_state = TSTATE_WAIT_SEM ∧
    (nxsem_waitirq env_ready 0 EINTR sys_null_waiter).events.countP Event.is_canceled = 0 ∧
    (nxsem_waitirq env_ready 0 EINTR sys_null_waiter).events.countP Event.is_canceled ≠ 1 := by
  decide

/-- C12, amended: for every task in `TSTATE_WAIT_SEM` whose `waitsem` is a
semaphore with negative count, the call invokes `nxsem_canceled` exactly once,
with arguments `(wtcb, sem)` where `sem` is the value of `waitsem` on entry.
The restore step is run in the memory on entry, in which the count is still
negative and the wait-target still set; no `semcount` or `waitsem` write
precedes it; the increment is then done in the memory the restore step gave
back, the clearing of `waitsem` follows, and the memory on return is that
memory after the three writes and the scheduler.  For a task in
`TSTATE_WAIT_SEM` that is not so blocked the assertion stops the call, the
restore step is not run and memory is as on entry. -/
theorem nxsem_waitirq_cancels_first (env : Env) (wtcb : Nat) (errcode : Int) (σ : Sys) :
    (∀ sem, BlockedOn σ wtcb sem →
      (nxsem_waitirq env wtcb errcode σ).events.countP Event.is_canceled = 1 ∧
      (nxsem_waitirq env wtcb errcode σ).events.count (Event.nxsem_canceled wtcb sem) = 1 ∧
      ∃ (before after : List Step) (seen : Sys),
        (nxsem_waitirq env wtcb errcode σ).trace
          = before ++ ⟨Event.nxsem_canceled wtcb sem, seen⟩
              :: ⟨Event.write_semcount sem, env.nxsem_canceled wtcb sem seen⟩ :: after ∧
        seen = σ ∧
        (seen.sems sem).semcount.val < 0 ∧
        (seen.tcbs wtcb).task_state = TSTATE_WAIT_SEM ∧
        (seen.tcbs wtcb).waitsem = some sem ∧
        (∀ e ∈ before.map Step.ev,
          e.is_write_semcount = false ∧ e.is_write_waitsem = false) ∧
        Event.write_waitsem wtcb ∈ after.map Step.ev ∧
        (nxsem_waitirq env wtcb errcode σ).sys
          = env.up_unblock_task wtcb
              ((((env.nxsem_canceled wtcb sem seen).incr_semcount sem).clear_waitsem
                wtcb).set_pterrno wtcb errcode)) ∧
    (((σ.tcbs wtcb).task_state = TSTATE_WAIT_SEM ∧ ∀ sem, ¬ BlockedOn σ wtcb sem) →
      (nxsem_waitirq env wtcb errcode σ).status = Status.assertion_failed ∧
      (nxsem_waitirq env wtcb errcode σ).events.countP Event.is_canceled = 0 ∧
      (nxsem_waitirq env wtcb errcode σ).sys = σ) := by
  constructor
  · intro sem hb
    rw [nxsem_waitirq_blocked env wtcb sem errcode σ hb]
    refine ⟨?_, ?_, ?_⟩
    · simp [nxsem_waitirq_body, Run.events, Event.is_canceled]
    · simp [nxsem_waitirq_body, Run.events]
    · refine ⟨[ ⟨Event.enter_critical_section env.enter_critical_section, σ⟩,
                ⟨Event.read_task_state wtcb, σ⟩,
                ⟨Event.read_waitsem wtcb, σ⟩,
                ⟨Event.debugassert true, σ⟩ ], _, σ, rfl, rfl, hb.2.2, hb.1, hb.2.1,
              ?_, ?_, rfl⟩
      · intro e he
        simp only [List.map_cons, List.map_nil, List.mem_cons, List.mem_singleton,
          List.not_mem_nil, or_false] at he
        rcases he with h | h | h | h <;> subst h <;> exact ⟨rfl, rfl⟩
      · simp
  · rintro ⟨h1, h2⟩
    rw [nxsem_waitirq_asserts env wtcb errcode σ h1 h2]
    simp [Run.events, Event.is_canceled]

/-- C12 amended, exercised: on the boosted waiter of `sys_boosted_waiter` the
restore step is called once, with task 0 and semaphore 0, and it is run: the
memory on return comes from the memory the restore step gave back, and the
effective priority 200 is back at the base priority 100.  On the waiter of
`sys_null_waiter` the restore step is neither called nor run. -/
theorem nxsem_waitirq_cancels_first_witness :
    BlockedOn sys_boosted_waiter 0 0 ∧
    (sys_boosted_waiter.tcbs 0).sched_priority = 200 ∧
    (nxsem_waitirq env_ready 0 EINTR sys_boosted_waiter).events.count
      (Event.nxsem_canceled 0 0) = 1 ∧
    (nxsem_waitirq env_ready 0 EINTR sys_boosted_waiter).sys
      = env_ready.up_unblock_task 0
          ((((env_ready.nxsem_canceled 0 0 sys_boosted_waiter).incr_semcount
            0).clear_waitsem 0).set_pterrno 0 EINTR) ∧
    ((nxsem_waitirq env_ready 0 EINTR sys_boosted_waiter).sys.tcbs 0).sched_priority = 100 ∧
    ((sys_null_waiter.tcbs 0).task_state = TSTATE_WAIT_SEM ∧
      ∀ sem, ¬ BlockedOn sys_null_waiter 0 sem) ∧
    (nxsem_waitirq env_ready 0 EINTR sys_null_waiter).events.countP Event.is_canceled = 0 ∧
    (nxsem_waitirq env_ready 0 EINTR sys_null_waiter).sys = sys_null_waiter :=
  ⟨sys_boosted_waiter_blocked, by decide,
   ((nxsem_waitirq_cancels_first env_ready 0 EINTR sys_boosted_waiter).1 0
      sys_boosted_waiter_blocked).2.1,
   (by
      obtain ⟨_, _, seen, _, hseen, _, _, _, _, _, hsys⟩ :=
        ((nxsem_waitirq_cancels_first env_ready 0 EINTR sys_boosted_waiter).1 0
          sys_boosted_waiter_blocked).2.2
      rw [hsys, hseen]),
   (by
      obtain ⟨_, _, seen, _, hseen, _, _, _, _, _, hsys⟩ :=
        ((nxsem_waitirq_cancels_first env_ready 0 EINTR sys_boosted_waiter).1 0
          sys_boosted_waiter_blocked).2.2
      rw [hsys, hseen]
      decide),
   ⟨by decide, sys_null_waiter_not_blocked⟩,
   ((nxsem_waitirq_cancels_first env_ready 0 EINTR sys_null_waiter).2
      ⟨by decide, sys_null_waiter_not_blocked⟩).2.1,
   ((nxsem_waitirq_cancels_first env_ready 0 EINTR sys_null_waiter).2
      ⟨by decide, sys_null_waiter_not_blocked⟩).2.2⟩

/-- C13: the assertion never fails in a well-formed state.  In a state where
every task in `TSTATE_WAIT_SEM` has a non-NULL `waitsem` and every semaphore
has `max (0, -semcount)` waiters, the call on any task of the system returns:
it does not end in an assertion failure, the assertion is never evaluated to
false, and a task found in `TSTATE_WAIT_SEM` is blocked on a semaphore with
negative count. -/
theorem nxsem_waitirq_assertion_unreachable (env : Env) (tasks : List Nat) (wtcb : Nat)
    (errcode : Int) (σ : Sys) (hmem : wtcb ∈ tasks) (ht : WaitersHaveTarget tasks σ)
    (hinv : CountInvariant tasks σ) :
    (nxsem_waitirq env wtcb errcode σ).status = Status.returned ∧
    (nxsem_waitirq env wtcb errcode σ).status ≠ Status.assertion_failed ∧
    Event.debugassert false ∉ (nxsem_waitirq env wtcb errcode σ).events ∧
    ((σ.tcbs wtcb).task_state = TSTATE_WAIT_SEM → ∃ sem, BlockedOn σ wtcb sem) := by
  have hblocked : (σ.tcbs wtcb).task_state = TSTATE_WAIT_SEM →
      ∃ sem, BlockedOn σ wtcb sem := by
    intro h1
    cases hw : (σ.tcbs wtcb).waitsem with
    | none => exact absurd hw (ht wtcb hmem h1)
    | some s =>
      refine ⟨s, h1, hw, ?_⟩
      have hpos : 0 < waiters tasks σ s := by
        unfold waiters
        rw [List.countP_pos_iff]
        refine ⟨wtcb, hmem, ?_⟩
        simp [is_waiter, h1, hw]
      have hi := hinv s
      omega
  by_cases h1 : (σ.tcbs wtcb).task_state = TSTATE_WAIT_SEM
  · obtain ⟨sem, hb⟩ := hblocked h1
    rw [nxsem_waitirq_blocked env wtcb sem errcode σ hb]
    refine ⟨rfl, by simp [nxsem_waitirq_body], ?_, fun _ => ⟨sem, hb⟩⟩
    simp [nxsem_waitirq_body, Run.events]
  · rw [nxsem_waitirq_skip env wtcb errcode σ h1]
    refine ⟨rfl, by simp, ?_, fun h => absurd h h1⟩
    simp [Run.events]

/-- C13, exercised: `sys_one_waiter` with tasks 0 and 1 is well formed, and the
call on its waiter returns. -/
theorem nxsem_waitirq_assertion_unreachable_witness :
    0 ∈ [0, 1] ∧ WaitersHaveTarget [0, 1] sys_one_waiter ∧
    CountInvariant [0, 1] sys_one_waiter ∧
    (nxsem_waitirq env_ready 0 EINTR sys_one_waiter).status = Status.returned :=
  ⟨by decide, by decide, sys_one_waiter_invariant,
   (nxsem_waitirq_assertion_unreachable env_ready [0, 1] 0 EINTR sys_one_waiter
      (by decide) (by decide) sys_one_waiter_invariant).1⟩

/-- C14: the function itself writes no field other than `sem->semcount`,
`wtcb->waitsem` and `wtcb->pterrno`.  For every state and `errcode`, with
`nxsem_canceled` and `up_unblock_task` taken as identity, every task keeps its
`task_state`, base priority and effective priority, every semaphore keeps its
protocol and holder data, every task other than `wtcb` is unchanged, and every
semaphore other than the one `wtcb` waits on is unchanged. -/
theorem nxsem_waitirq_frame (env : Env) (wtcb : Nat) (errcode : Int) (σ : Sys)
    (hc : ∀ t s τ, env.nxsem_canceled t s τ = τ)
    (hu : ∀ t τ, env.up_unblock_task t τ = τ) :
    (∀ u, ((nxsem_waitirq env wtcb errcode σ).sys.tcbs u).task_state
        = (σ.tcbs u).task_state ∧
      ((nxsem_waitirq env wtcb errcode σ).sys.tcbs u).base_priority
        = (σ.tcbs u).base_priority ∧
      ((nxsem_waitirq env wtcb errcode σ).sys.tcbs u).sched_priority
        = (σ.tcbs u).sched_priority) ∧
    (∀ s, ((nxsem_waitirq env wtcb errcode σ).sys.sems s).protocol = (σ.sems s).protocol ∧
      ((nxsem_waitirq env wtcb errcode σ).sys.sems s).holders = (σ.sems s).holders) ∧
    (∀ u, u ≠ wtcb → (nxsem_waitirq env wtcb errcode σ).sys.tcbs u = σ.tcbs u) ∧
    (∀ s, (σ.tcbs wtcb).waitsem ≠ some s →
      (nxsem_waitirq env wtcb errcode σ).sys.sems s = σ.sems s) := by
  rcases nxsem_waitirq_cases σ wtcb with h | ⟨sem, hb⟩ | ⟨h1, h2⟩
  · rw [nxsem_waitirq_skip env wtcb errcode σ h]
    simp
  · rw [nxsem_waitirq_blocked env wtcb sem errcode σ hb]
    simp only [nxsem_waitirq_body, hc, hu]
    refine ⟨?_, ?_, ?_, ?_⟩
    · intro u
      by_cases huw : u = wtcb
      · subst huw
        simp [Sys.set_pterrno, Sys.clear_waitsem, Sys.incr_semcount]
      · simp [Sys.set_pterrno, Sys.clear_waitsem, Sys.incr_semcount,
          Function.update_noteq huw]
    · intro s
      by_cases hs : s = sem
      · subst hs
        simp [Sys.set_pterrno, Sys.clear_waitsem, Sys.incr_semcount]
      · simp [Sys.set_pterrno, Sys.clear_waitsem, Sys.incr_semcount,
          Function.update_noteq hs]
    · intro u huw
      simp [Sys.set_pterrno, Sys.clear_waitsem, Sys.incr_semcount,
        Function.update_noteq huw]
    · intro s hs
      have hne : s ≠ sem := by
        intro e
        apply hs
        rw [e]
        exact hb.2.1
      simp [Sys.set_pterrno, Sys.clear_waitsem, Sys.incr_semcount,
        Function.update_noteq hne]
  · rw [nxsem_waitirq_asserts env wtcb errcode σ h1 h2]
    simp

/-- C14, exercised: with do-nothing collaborators the waiter of
`sys_one_waiter` is still in `TSTATE_WAIT_SEM` after the call, with its
priorities as before, and task 1 is unchanged. -/
theorem nxsem_waitirq_frame_witness :
    (∀ t s τ, env_identity.nxsem_canceled t s τ = τ) ∧
    (∀ t τ, env_identity.up_unblock_task t τ = τ) ∧
    ((nxsem_waitirq env_identity 0 EINTR sys_one_waiter).sys.tcbs 0).task_state
      = (sys_one_waiter.tcbs 0).task_state ∧
    (nxsem_waitirq env_identity 0 EINTR sys_one_waiter).sys.tcbs 1 = sys_one_waiter.tcbs 1 :=
  ⟨fun _ _ _ => rfl, fun _ _ => rfl,
   ((nxsem_waitirq_frame env_identity 0 EINTR sys_one_waiter (fun _ _ _ => rfl)
      (fun _ _ => rfl)).1 0).1,
   (nxsem_waitirq_frame env_identity 0 EINTR sys_one_waiter (fun _ _ _ => rfl)
      (fun _ _ => rfl)).2.2.1 1 (by decide)⟩

/-- The 16-bit increment does wrap at the top of the range: from 32767 it
gives -32768. -/
theorem int16_incr_wraps_at_max : (int16_t.ofInt 32767).incr.val = -32768 := by
  decide

/-- C15: the increment stays in range and never makes units available.  For a
blocked task whose semaphore has the 16-bit signed count `c`, with
`-32768 ≤ c < 0` as asserted, the increment is computed without overflow (the
wrapped result is `c + 1`), the count after the call is `c + 1`, it lies in
the 16-bit range and is at most 0; from `c = -1` it is 0.  The restore step
and the scheduler are assumed to leave counts alone. -/
theorem nxsem_waitirq_increment_in_range (env : Env) (wtcb sem : Nat) (errcode : Int)
    (σ : Sys) (hcc : CanceledKeepsCounts env) (huc : UnblockKeepsCounts env)
    (hb : BlockedOn σ wtcb sem) :
    (-32768 ≤ (σ.sems sem).semcount.val ∧ (σ.sems sem).semcount.val < 0) ∧
    int16_wrap ((σ.sems sem).semcount.val + 1) = (σ.sems sem).semcount.val + 1 ∧
    (σ.sems sem).semcount.incr.val = (σ.sems sem).semcount.val + 1 ∧
    ((nxsem_waitirq env wtcb errcode σ).sys.sems sem).semcount.val
      = (σ.sems sem).semcount.val + 1 ∧
    -32768 ≤ (σ.sems sem).semcount.val + 1 ∧
    (σ.sems sem).semcount.val + 1 ≤ 0 ∧
    ((nxsem_waitirq env wtcb errcode σ).sys.sems sem).semcount.val ≤ 0 ∧
    ((σ.sems sem).semcount.val = -1 →
      ((nxsem_waitirq env wtcb errcode σ).sys.sems sem).semcount.val = 0) := by
  have hlo := (σ.sems sem).semcount.property.1
  have hneg := hb.2.2
  have hwrap : int16_wrap ((σ.sems sem).semcount.val + 1)
      = (σ.sems sem).semcount.val + 1 := by
    unfold int16_wrap
    omega
  have hfinal : ((nxsem_waitirq env wtcb errcode σ).sys.sems sem).semcount.val
      = (σ.sems sem).semcount.val + 1 := by
    rw [nxsem_waitirq_blocked env wtcb sem errcode σ hb]
    simp only [nxsem_waitirq_body]
    rw [huc, Sys.set_pterrno, Sys.clear_waitsem, Sys.incr_semcount]
    simp only [Function.update_same, int16_t.incr, int16_t.ofInt]
    rw [hcc]
    exact hwrap
  refine ⟨⟨hlo, hneg⟩, hwrap, hwrap, hfinal, by omega, by omega, by omega, ?_⟩
  intro h
  rw [hfinal, h]
  rfl

/-- C15, exercised: the one waiter of `sys_one_waiter` has count -1, and the
cancellation leaves the count at 0, not above. -/
theorem nxsem_waitirq_increment_in_range_witness :
    BlockedOn sys_one_waiter 0 0 ∧
    ((nxsem_waitirq env_ready 0 ETIMEDOUT sys_one_waiter).sys.sems 0).semcount.val ≤ 0 ∧
    ((nxsem_waitirq env_ready 0 ETIMEDOUT sys_one_waiter).sys.sems 0).semcount.val = 0 :=
  ⟨sys_one_waiter_blocked,
   (nxsem_waitirq_increment_in_range env_ready 0 0 ETIMEDOUT sys_one_waiter
      env_ready_frame.1 env_ready_frame.2.2.1 sys_one_waiter_blocked).2.2.2.2.2.2.1,
   (nxsem_waitirq_increment_in_range env_ready 0 0 ETIMEDOUT sys_one_waiter
      env_ready_frame.1 env_ready_frame.2.2.1 sys_one_waiter_blocked).2.2.2.2.2.2.2
      (by decide)⟩

end Nuttx
